import Mathlib

/-!
Verification of the resilient HTTP client in
`src/internal/network/network_handler.py` (classes `NetworkHandler` and
`NetworkFailureHandler`).

The embedding is a shallow one: the transport (the `requests.request` call)
is abstracted as a function from the attempt number (1-based; every loop
iteration issues exactly one transport call with identical arguments, so the
observable behavior can only vary with the attempt index) to an event — a
response object or one of the exception classes distinguished by the
`except` clauses of `make_request`.  Blocking waits (`time.sleep`) are
modelled by recording the requested duration, in seconds, in a trace.
`time.sleep` raises `ValueError` on a negative duration; on the 429 path
that sits inside the `try` block and is caught by the generic
`except Exception` handler (modelled explicitly below), while in
`_handle_retry` a negative duration can only arise from a negative
`base_delay` configuration, for which the exception would escape
`make_request`; the embedding therefore assumes `0 ≤ base_delay` wherever a
theorem quantifies over configurations.
-/

namespace Recac

/-- Structured JSON-like values: the payloads that circulate between the
transport, the Executor (`NetworkHandler`) and the Coordinator
(`NetworkFailureHandler`).  Objects are association lists of string keys;
`jnull` is the JSON literal `null`, which `response.json()` parses to the
Python value `None`. -/
inductive JValue where
  | jnull
  | jstr (s : String)
  | jnum (n : Int)
  | jbool (b : Bool)
  | jobj (entries : List (String × JValue))
  deriving Repr

/-- Python truthiness for the modelled values: `None`, empty strings, zero,
`False` and empty dicts are falsy; this is the test performed by
`if fallback_data:` in `with_fallback`. -/
def pyTruthy : JValue → Bool
  | .jnull => false
  | .jstr s => !s.isEmpty
  | .jnum n => n != 0
  | .jbool b => b
  | .jobj l => !l.isEmpty

/-- Lookup in a Python dict modelled as an association list (first match,
and `dictSet` keeps keys unique). -/
def dictGet (d : List (String × JValue)) (k : String) : Option JValue :=
  match d with
  | [] => none
  | (k2, v) :: rest => if k2 = k then some v else dictGet rest k

/-- Assignment `d[k] = v` on a Python dict modelled as an association list:
overwrite the existing binding, else append. -/
def dictSet (d : List (String × JValue)) (k : String) (v : JValue) :
    List (String × JValue) :=
  match d with
  | [] => [(k, v)]
  | (k2, v2) :: rest =>
      if k2 = k then (k, v) :: rest else (k2, v2) :: dictSet rest k v

/-- ASCII whitespace, as stripped by Python `int` from a string argument. -/
def pyIsSpace (c : Char) : Bool :=
  c = ' ' || c = '\t' || c = '\n' || c = '\r' || c = '\x0b' || c = '\x0c'

/-- Strip leading and trailing whitespace from a character list. -/
def stripSpaces (l : List Char) : List Char :=
  ((l.dropWhile pyIsSpace).reverse.dropWhile pyIsSpace).reverse

/-- Accumulate the decimal value of a digit run; fails on any non-digit. -/
def digitsValAux : List Char → Nat → Option Nat
  | [], acc => some acc
  | c :: rest, acc =>
      let n := c.toNat
      if 48 ≤ n ∧ n ≤ 57 then digitsValAux rest (acc * 10 + (n - 48))
      else none

/-- Decimal value of a nonempty run of digits; `none` otherwise. -/
def digitsVal : List Char → Option Nat
  | [] => none
  | l => digitsValAux l 0

/-- Python `int(s)` on a string: optional surrounding whitespace, an
optional sign, then decimal digits; any other shape raises `ValueError`,
modelled as `none` (the underscore-separator extension of the Python
integer grammar is not modelled).  Used on the `Retry-After` header
value. -/
def pyIntOfString (s : String) : Option Int :=
  match stripSpaces s.data with
  | '-' :: rest => (digitsVal rest).map (fun n => -(n : Int))
  | '+' :: rest => (digitsVal rest).map (fun n => (n : Int))
  | l => (digitsVal l).map (fun n => (n : Int))

/-- Python `int(x)` on a float (here a rational): truncation toward zero.
Used when the `Retry-After` header is absent and `int` is applied to
`base_delay`. -/
def pyIntOfRat (q : ℚ) : Int := q.num.tdiv (q.den : Int)

/-- The observable part of a `requests` response object: status code, the
`Retry-After` header when present, the result of `response.json()`
(`some v` when the body parses — `v` may be `JValue.jnull` for a body that
is the JSON literal `null` — and `none` when parsing raises `ValueError`),
and `response.text`. -/
structure HttpResponse where
  status_code : Nat
  retryAfter : Option String
  jsonBody : Option JValue
  text : String

/-- Outcome of one `requests.request` call, as discriminated by the
`try`/`except` clauses of `make_request`: a response, or one of `Timeout`,
`ConnectionError`, `RequestException`, or any other exception. -/
inductive TransportEvent where
  | resp (r : HttpResponse)
  | timeout
  | connectionError
  | requestError
  | otherError

/-- Configuration of `NetworkHandler.__init__`: `max_retries`, `base_delay`
(a float, modelled as a rational) and the per-request `timeout` (passed to
the transport; it does not influence the control flow modelled here). -/
structure NetworkHandler where
  max_retries : Nat
  base_delay : ℚ
  timeout : ℚ

/-- Embedding of `NetworkHandler._handle_retry`: when the current attempt
number is still within the budget, sleep `base_delay * 2 ** (attempt - 1)`
seconds; the result is the duration slept, `none` when no sleep occurs. -/
def handle_retry (h : NetworkHandler) (attempt : Nat) : Option ℚ :=
  if attempt ≤ h.max_retries then some (h.base_delay * 2 ^ (attempt - 1))
  else none

/-- Value returned by the status-below-400 branch of `make_request`:
`return response.json()` hands the parsed body to the caller verbatim —
which is the Python value `None`, indistinguishable from the absence
signal, when the body is the JSON literal `null` — and on `ValueError` the
`{status: "success", data: response.text}` wrapper is returned instead. -/
def successBody (r : HttpResponse) : Option JValue :=
  match r.jsonBody with
  | some .jnull => none
  | some v => some v
  | none => some (.jobj [("status", .jstr "success"), ("data", .jstr r.text)])

/-- Observable outcome of `make_request`: the returned value (`none` for the
`return None` paths), the number of transport invocations, and the trace of
sleep durations in seconds, in order. -/
structure RunResult where
  result : Option JValue
  calls : Nat
  sleeps : List ℚ
  deriving Repr

/-- Embedding of the `while attempt <= self.max_retries` loop of
`NetworkHandler.make_request`.  `attempt` is the loop variable before the
increment at the top of the body; since it increases by exactly one per
iteration, the loop condition is equivalently encoded by a fuel argument
initialised to `max_retries + 1`.  `sleeps` accumulates the sleep trace in
reverse.  The 429 branch computes
`int(response.headers.get('Retry-After', self.base_delay))` — `ValueError`
from `int` on a non-numeric header, or from `time.sleep` on a negative
duration, is caught by the final `except Exception` clause, which returns
`None`. -/
def make_requestAux (h : NetworkHandler) (transport : Nat → TransportEvent) :
    Nat → Nat → List ℚ → RunResult
  | 0, attempt, sleeps =>
      { result := none, calls := attempt, sleeps := sleeps.reverse }
  | fuel + 1, attempt, sleeps =>
      let a := attempt + 1
      match transport a with
      | .resp r =>
          if r.status_code < 400 then
            { result := successBody r, calls := a, sleeps := sleeps.reverse }
          else if r.status_code = 429 then
            match r.retryAfter with
            | some s =>
                match pyIntOfString s with
                | some k =>
                    if k < 0 then
                      { result := none, calls := a, sleeps := sleeps.reverse }
                    else
                      make_requestAux h transport fuel a ((k : ℚ) :: sleeps)
                | none =>
                    { result := none, calls := a, sleeps := sleeps.reverse }
            | none =>
                let k := pyIntOfRat h.base_delay
                if k < 0 then
                  { result := none, calls := a, sleeps := sleeps.reverse }
                else
                  make_requestAux h transport fuel a ((k : ℚ) :: sleeps)
          else
            { result := none, calls := a, sleeps := sleeps.reverse }
      | .timeout =>
          match handle_retry h a with
          | some d => make_requestAux h transport fuel a (d :: sleeps)
          | none => make_requestAux h transport fuel a sleeps
      | .connectionError =>
          match handle_retry h a with
          | some d => make_requestAux h transport fuel a (d :: sleeps)
          | none => make_requestAux h transport fuel a sleeps
      | .requestError =>
          match handle_retry h a with
          | some d => make_requestAux h transport fuel a (d :: sleeps)
          | none => make_requestAux h transport fuel a sleeps
      | .otherError =>
          { result := none, calls := a, sleeps := sleeps.reverse }

/-- Embedding of `NetworkHandler.make_request`: run the attempt loop from
`attempt = 0`; the loop body executes at most `max_retries + 1` times. -/
def make_request (h : NetworkHandler) (transport : Nat → TransportEvent) :
    RunResult :=
  make_requestAux h transport (h.max_retries + 1) 0 []

/-- The marker synthesized by `with_fallback` when the request fails and no
truthy fallback payload is available. -/
def errorFallbackMarker : JValue :=
  .jobj [("status", .jstr "error"), ("message", .jstr "Network request failed"),
         ("fallback", .jbool true)]

/-- The marker returned by `get_with_cache` when neither the network, nor
the cache, nor the fallback table yields data. -/
def noDataMarker : JValue :=
  .jobj [("status", .jstr "error"), ("message", .jstr "No data available")]

/-- Embedding of `NetworkFailureHandler.with_fallback`.  The request
arguments are subsumed by `transport`; `fallback_data` is the optional
`fallback_data` argument (default `None`).  The `if fallback_data:` test in
the source is Python truthiness, so `None` and the empty dict both fall
through to the synthesized marker. -/
def with_fallback (h : NetworkHandler) (transport : Nat → TransportEvent)
    (fallback_data : Option JValue) : JValue :=
  match (make_request h transport).result with
  | some r => r
  | none =>
      match fallback_data with
      | some fb => if pyTruthy fb then fb else errorFallbackMarker
      | none => errorFallbackMarker

/-- Mutable state of a `NetworkFailureHandler` instance: the fallback table
`self.fallback_data` keyed by URL, and the lazily created cache `self._cache`
keyed by the fingerprint string (an instance starts with the attribute
absent, which behaves as the empty dict in `get_with_cache`). -/
structure NetworkFailureHandlerState where
  fallback_data : List (String × JValue)
  cache : List (String × JValue)

/-- Embedding of `NetworkFailureHandler.set_fallback_data`. -/
def set_fallback_data (st : NetworkFailureHandlerState) (url : String)
    (data : JValue) : NetworkFailureHandlerState :=
  { st with fallback_data := dictSet st.fallback_data url data }

/-- The cache fingerprint `f"{url}_{str(params)}"`.  The `params` dict is
modelled by its `str()` rendering, which is all `get_with_cache` uses of it
besides forwarding it to the transport (already abstracted); equal params
yield equal renderings. -/
def cache_key (url : String) (params : String) : String :=
  url ++ "_" ++ params

/-- Observable outcome of one `get_with_cache` call: the returned value, the
state of the handler after the call, and the number of transport
invocations made during the call. -/
structure CacheCallResult where
  value : JValue
  state : NetworkFailureHandlerState
  networkCalls : Nat

/-- Embedding of `NetworkFailureHandler.get_with_cache`: on a cache hit
under the fingerprint, return the entry with no network call; otherwise run
the Executor GET, substitute the fallback-table entry for the URL when the
Executor returned `None`, store any non-`None` result in the cache under
the fingerprint, and fall back to the no-data marker. -/
def get_with_cache (h : NetworkHandler) (st : NetworkFailureHandlerState)
    (transport : Nat → TransportEvent) (url : String) (params : String) :
    CacheCallResult :=
  let key := cache_key url params
  match dictGet st.cache key with
  | some v => { value := v, state := st, networkCalls := 0 }
  | none =>
      let run := make_request h transport
      let result :=
        match run.result with
        | none => dictGet st.fallback_data url
        | some r => some r
      match result with
      | some r =>
          { value := r,
            state := { st with cache := dictSet st.cache key r },
            networkCalls := run.calls }
      | none => { value := noDataMarker, state := st, networkCalls := run.calls }

/-! ## Helper lemmas -/

/-- Reading back a key just assigned in a dict yields the assigned value. -/
theorem dictGet_dictSet_self (d : List (String × JValue)) (k : String)
    (v : JValue) : dictGet (dictSet d k v) k = some v := by
  induction d with
  | nil => simp [dictSet, dictGet]
  | cons p rest ih =>
      obtain ⟨k2, v2⟩ := p
      by_cases hk : k2 = k
      · simp [dictSet, dictGet, hk]
      · simp [dictSet, dictGet, hk, ih]

/-- The loop never reports fewer transport calls than the attempt counter
it started from. -/
theorem make_requestAux_calls_lower (h : NetworkHandler)
    (t : Nat → TransportEvent) :
    ∀ fuel attempt sleeps,
      attempt ≤ (make_requestAux h t fuel attempt sleeps).calls := by
  intro fuel
  induction fuel with
  | zero => intro a s; simp [make_requestAux]
  | succ fuel ih =>
      intro a s
      simp only [make_requestAux]
      cases t (a + 1) <;> dsimp only <;> repeat' split
      all_goals
        first
          | simp
          | exact Nat.le_of_succ_le (ih _ _)

/-- With at least one loop iteration available, the loop makes at least one
further transport call. -/
theorem make_requestAux_calls_lower_succ (h : NetworkHandler)
    (t : Nat → TransportEvent) (fuel attempt : Nat) (sleeps : List ℚ)
    (hf : 1 ≤ fuel) :
    attempt + 1 ≤ (make_requestAux h t fuel attempt sleeps).calls := by
  obtain ⟨fuel, rfl⟩ : ∃ f, fuel = f + 1 := ⟨fuel - 1, by omega⟩
  simp only [make_requestAux]
  cases t (attempt + 1) <;> dsimp only <;> repeat' split
  all_goals
    first
      | simp
      | exact make_requestAux_calls_lower h t _ _ _

/-- Under a transport that times out on every attempt, the loop consumes
all its fuel, sleeping through `_handle_retry` each time the budget allows,
and returns `None` having made one call per unit of fuel. -/
theorem make_requestAux_all_timeout (h : NetworkHandler)
    (t : Nat → TransportEvent) (ht : ∀ a, t a = .timeout) :
    ∀ fuel attempt sleeps,
      (make_requestAux h t fuel attempt sleeps).result = none ∧
      (make_requestAux h t fuel attempt sleeps).calls = attempt + fuel := by
  intro fuel
  induction fuel with
  | zero => intro a s; simp [make_requestAux]
  | succ fuel ih =>
      intro a s
      simp only [make_requestAux, ht (a + 1)]
      rcases hr : handle_retry h (a + 1) with _ | d <;> dsimp only
      · obtain ⟨h1, h2⟩ := ih (a + 1) s
        exact ⟨h1, by omega⟩
      · obtain ⟨h1, h2⟩ := ih (a + 1) (d :: s)
        exact ⟨h1, by omega⟩

/-- C4, confirmed.  For every configuration with a nonnegative base delay
(so that `time.sleep` cannot raise) and every transport that raises
`Timeout` on each attempt, `make_request` returns absence and the transport
is invoked exactly `max_retries + 1` times. -/
theorem always_timeout_exhausts_budget (h : NetworkHandler)
    (t : Nat → TransportEvent) (_hb : 0 ≤ h.base_delay)
    (ht : ∀ a, t a = .timeout) :
    (make_request h t).result = none ∧
    (make_request h t).calls = h.max_retries + 1 := by
  have h2 := make_requestAux_all_timeout h t ht (h.max_retries + 1) 0 []
  simp only [make_request]
  exact ⟨h2.1, by omega⟩

/-- Concrete instantiation of C4: default configuration, all attempts time
out, four transport calls and no payload. -/
theorem always_timeout_exhausts_budget_witness :
    (make_request ⟨3, 1, 10⟩ (fun _ => .timeout)).result = none ∧
    (make_request ⟨3, 1, 10⟩ (fun _ => .timeout)).calls = 3 + 1 :=
  always_timeout_exhausts_budget ⟨3, 1, 10⟩ (fun _ => .timeout)
    (by norm_num) (fun _ => rfl)

/-- A run that times out on the next `m` attempts, all within the retry
budget, and then receives a success response, returns that success after
`m` backoff sleeps of `base_delay * 2 ^ (attempt + i)` seconds. -/
theorem make_requestAux_timeouts_then_success (h : NetworkHandler)
    (t : Nat → TransportEvent) (r : HttpResponse) (hst : r.status_code < 400) :
    ∀ m attempt sleeps fuel,
      m < fuel →
      attempt + m ≤ h.max_retries →
      (∀ i, attempt + 1 ≤ i → i ≤ attempt + m → t i = .timeout) →
      t (attempt + m + 1) = .resp r →
      (make_requestAux h t fuel attempt sleeps).result = successBody r ∧
      (make_requestAux h t fuel attempt sleeps).calls = attempt + m + 1 ∧
      (make_requestAux h t fuel attempt sleeps).sleeps =
        sleeps.reverse ++
          (List.range m).map (fun i => h.base_delay * 2 ^ (attempt + i)) := by
  intro m
  induction m with
  | zero =>
      intro attempt sleeps fuel hf _hm _hto hs
      obtain ⟨f, rfl⟩ : ∃ f, fuel = f + 1 := ⟨fuel - 1, by omega⟩
      rw [show attempt + 0 + 1 = attempt + 1 by omega] at hs
      simp only [make_requestAux, hs]
      simp [hst]
  | succ m ih =>
      intro attempt sleeps fuel hf hm hto hs
      obtain ⟨f, rfl⟩ : ∃ f, fuel = f + 1 := ⟨fuel - 1, by omega⟩
      have ht1 : t (attempt + 1) = .timeout := hto (attempt + 1) (by omega) (by omega)
      have hr : handle_retry h (attempt + 1) =
          some (h.base_delay * 2 ^ attempt) := by
        simp [handle_retry, show attempt + 1 ≤ h.max_retries by omega]
      simp only [make_requestAux, ht1, hr]
      obtain ⟨ih1, ih2, ih3⟩ :=
        ih (attempt + 1) (h.base_delay * 2 ^ attempt :: sleeps) f (by omega)
          (by omega) (fun i h1 h2 => hto i (by omega) (by omega))
          (by rw [show attempt + 1 + m + 1 = attempt + (m + 1) + 1 by omega]
              exact hs)
      refine ⟨ih1, by omega, ?_⟩
      rw [ih3, List.reverse_cons, List.append_assoc, List.range_succ_eq_map]
      congr 1
      simp only [List.map_cons, List.map_map, Nat.add_zero, List.singleton_append]
      have hfun : ((fun i => h.base_delay * 2 ^ (attempt + i)) ∘ Nat.succ) =
          fun i => h.base_delay * 2 ^ (attempt + 1 + i) := by
        funext i
        show h.base_delay * 2 ^ (attempt + (i + 1)) =
          h.base_delay * 2 ^ (attempt + 1 + i)
        rw [show attempt + (i + 1) = attempt + 1 + i by omega]
      rw [hfun]

/-- C5, confirmed.  With a nonnegative base delay, if the transport times
out on the first `k < max_retries + 1` attempts and then succeeds,
`make_request` returns the success body, invokes the transport exactly
`k + 1` times, and the sleep after the `i`-th failed attempt lasts
`base_delay * 2 ^ (i - 1)` seconds for `i` in `1..k` (the trace below lists
exponents `0..k-1` in order). -/
theorem timeouts_then_success_backoff (h : NetworkHandler)
    (t : Nat → TransportEvent) (r : HttpResponse) (k : Nat)
    (_hb : 0 ≤ h.base_delay) (hk : k < h.max_retries + 1)
    (hto : ∀ i, 1 ≤ i → i ≤ k → t i = .timeout)
    (hs : t (k + 1) = .resp r) (hst : r.status_code < 400) :
    (make_request h t).result = successBody r ∧
    (make_request h t).calls = k + 1 ∧
    (make_request h t).sleeps =
      (List.range k).map (fun i => h.base_delay * 2 ^ i) := by
  obtain ⟨h1, h2, h3⟩ :=
    make_requestAux_timeouts_then_success h t r hst k 0 [] (h.max_retries + 1)
      (by omega) (by omega) (fun i hi1 hi2 => hto i (by omega) (by omega))
      (by rw [show 0 + k + 1 = k + 1 by omega]; exact hs)
  refine ⟨h1, by rw [make_request, h2]; omega, ?_⟩
  rw [make_request, h3]
  simp

/-- Concrete instantiation of C5: default configuration, two timeouts then
a JSON success; three calls, sleeps of one and two seconds. -/
theorem timeouts_then_success_backoff_witness :
    (make_request ⟨3, 1, 10⟩
        (fun a => if a ≤ 2 then .timeout else .resp ⟨200, none, some (.jnum 7), "7"⟩)).result =
      successBody ⟨200, none, some (.jnum 7), "7"⟩ ∧
    (make_request ⟨3, 1, 10⟩
        (fun a => if a ≤ 2 then .timeout else .resp ⟨200, none, some (.jnum 7), "7"⟩)).calls =
      2 + 1 ∧
    (make_request ⟨3, 1, 10⟩
        (fun a => if a ≤ 2 then .timeout else .resp ⟨200, none, some (.jnum 7), "7"⟩)).sleeps =
      (List.range 2).map (fun i => (1 : ℚ) * 2 ^ i) :=
  timeouts_then_success_backoff ⟨3, 1, 10⟩ _ _ 2 (by norm_num) (by decide)
    (fun i hi1 hi2 => by
      have : i ≤ 2 := hi2
      simp [this])
    (by norm_num) (by norm_num)

/-- Under a transport that answers every attempt with a 429 response
carrying no `Retry-After` header, and a base delay whose truncation is
nonnegative, each loop iteration sleeps `int(base_delay)` seconds and
consumes one unit of fuel; the loop therefore terminates with `None` after
one call per unit of fuel. -/
theorem make_requestAux_all_429 (h : NetworkHandler)
    (t : Nat → TransportEvent) (r : HttpResponse)
    (hr : ∀ a, t a = .resp r) (h429 : r.status_code = 429)
    (hh : r.retryAfter = none) (hk : 0 ≤ pyIntOfRat h.base_delay) :
    ∀ fuel attempt sleeps,
      make_requestAux h t fuel attempt sleeps =
        { result := none, calls := attempt + fuel,
          sleeps := sleeps.reverse ++
            List.replicate fuel ((pyIntOfRat h.base_delay : Int) : ℚ) } := by
  intro fuel
  induction fuel with
  | zero => intro a s; simp [make_requestAux]
  | succ fuel ih =>
      intro a s
      have hlt : ¬ r.status_code < 400 := by omega
      simp only [make_requestAux, hr (a + 1), hlt, if_false, h429, if_pos, hh]
      rw [ih (a + 1) (((pyIntOfRat h.base_delay : Int) : ℚ) :: s)]
      rw [if_neg (by omega : ¬ pyIntOfRat h.base_delay < 0)]
      rw [if_neg (by norm_num : ¬ (429 : Nat) < 400)]
      simp only [RunResult.mk.injEq]
      refine ⟨by trivial, by omega, ?_⟩
      rw [List.reverse_cons, List.append_assoc, List.replicate_succ]
      simp

/-- Falsifies C2 as stated: with the default configuration and a transport
that returns a bare 429 on every attempt, `make_request` does return — it
terminates after exactly `max_retries + 1 = 4` transport calls, so the
rate-limit cycles are counted against the attempt budget. -/
theorem always_429_terminates_cex :
    make_request ⟨3, 1, 10⟩ (fun _ => .resp ⟨429, none, none, ""⟩) =
      { result := none, calls := 3 + 1,
        sleeps := List.replicate 4 ((pyIntOfRat 1 : Int) : ℚ) } := by
  rw [make_request,
    make_requestAux_all_429 ⟨3, 1, 10⟩ _ ⟨429, none, none, ""⟩
      (fun _ => rfl) rfl rfl (by decide) 4 0 []]
  simp

/-- C2, amended.  A 429 response causes the Executor to sleep and retry,
but the cycle does consume the attempt budget: `attempt` is incremented at
the top of every loop iteration, including rate-limit iterations, so
against a transport that returns a bare 429 (no `Retry-After` header, with
`int(base_delay)` nonnegative) on every attempt, `execute` sleeps
`int(base_delay)` seconds per cycle and returns absence after exactly
`max_retries + 1` transport calls. -/
theorem rate_limit_consumes_attempt_budget (h : NetworkHandler)
    (t : Nat → TransportEvent) (r : HttpResponse)
    (hr : ∀ a, t a = .resp r) (h429 : r.status_code = 429)
    (hh : r.retryAfter = none) (hk : 0 ≤ pyIntOfRat h.base_delay) :
    make_request h t =
      { result := none, calls := h.max_retries + 1,
        sleeps := List.replicate (h.max_retries + 1)
          ((pyIntOfRat h.base_delay : Int) : ℚ) } := by
  rw [make_request, make_requestAux_all_429 h t r hr h429 hh hk]
  simp

/-- Concrete instantiation of the amended C2 at the default configuration:
four calls, four one-second sleeps, no payload. -/
theorem rate_limit_consumes_attempt_budget_witness :
    make_request ⟨2, 1, 10⟩ (fun _ => .resp ⟨429, none, none, "slow down"⟩) =
      { result := none, calls := 2 + 1,
        sleeps := List.replicate (2 + 1) ((pyIntOfRat 1 : Int) : ℚ) } :=
  rate_limit_consumes_attempt_budget ⟨2, 1, 10⟩ _ ⟨429, none, none, "slow down"⟩
    (fun _ => rfl) rfl rfl (by decide)

/-- Falsifies C3 as stated: with the default configuration and a 429
response carrying the non-numeric header `Retry-After: soon`, the claim
predicts a one-second sleep followed by a retry, but `int("soon")` raises
`ValueError`, the generic `except Exception` clause catches it, and
`make_request` returns `None` after a single transport call with no
sleep. -/
theorem non_numeric_retry_after_aborts_cex :
    make_request ⟨3, 1, 10⟩ (fun _ => .resp ⟨429, some "soon", none, ""⟩) =
      { result := none, calls := 1, sleeps := [] } ∧
    (make_request ⟨3, 1, 10⟩ (fun _ => .resp ⟨429, some "soon", none, ""⟩)).calls ≠
      1 + 1 :=
  ⟨rfl, by decide⟩

/-- C3, amended.  When a 429 response carries no `Retry-After` header and
`int(base_delay)` is nonnegative, the Executor sleeps `int(base_delay)`
seconds and re-enters the attempt loop, making a further transport call
whenever an iteration remains; when the header is present but non-numeric,
`int` raises `ValueError`, the generic exception handler catches it, and
`make_request` returns absence immediately, without sleeping and without
retrying. -/
theorem retry_after_header_handling :
    (∀ (h : NetworkHandler) (t : Nat → TransportEvent) (fuel attempt : Nat)
        (sleeps : List ℚ) (r : HttpResponse),
      t (attempt + 1) = .resp r → r.status_code = 429 → r.retryAfter = none →
      0 ≤ pyIntOfRat h.base_delay →
      make_requestAux h t (fuel + 1) attempt sleeps =
        make_requestAux h t fuel (attempt + 1)
          (((pyIntOfRat h.base_delay : Int) : ℚ) :: sleeps) ∧
      (1 ≤ fuel →
        attempt + 2 ≤ (make_requestAux h t (fuel + 1) attempt sleeps).calls)) ∧
    (∀ (h : NetworkHandler) (t : Nat → TransportEvent) (fuel attempt : Nat)
        (sleeps : List ℚ) (r : HttpResponse) (s : String),
      t (attempt + 1) = .resp r → r.status_code = 429 → r.retryAfter = some s →
      pyIntOfString s = none →
      make_requestAux h t (fuel + 1) attempt sleeps =
        { result := none, calls := attempt + 1, sleeps := sleeps.reverse }) := by
  constructor
  · intro h t fuel attempt sleeps r ht1 h429 hh hk
    have hlt : ¬ r.status_code < 400 := by omega
    have hstep : make_requestAux h t (fuel + 1) attempt sleeps =
        make_requestAux h t fuel (attempt + 1)
          (((pyIntOfRat h.base_delay : Int) : ℚ) :: sleeps) := by
      simp only [make_requestAux, ht1, hlt, if_false, h429, if_pos, hh]
      rw [if_neg (by omega : ¬ pyIntOfRat h.base_delay < 0)]
      rw [if_neg (by norm_num : ¬ (429 : Nat) < 400)]
    refine ⟨hstep, fun hf => ?_⟩
    rw [hstep]
    exact make_requestAux_calls_lower_succ h t fuel (attempt + 1) _ hf
  · intro h t fuel attempt sleeps r s ht1 h429 hh hi
    have hlt : ¬ r.status_code < 400 := by omega
    simp only [make_requestAux, ht1, hlt, if_false, h429, if_pos, hh, hi]
    rw [if_neg (by norm_num : ¬ (429 : Nat) < 400)]

/-- Concrete instantiation of the amended C3: a bare 429 advances the loop
after a one-second sleep, and a 429 with `Retry-After: soon` ends the run
at once. -/
theorem retry_after_header_handling_witness :
    (make_requestAux ⟨3, 1, 10⟩ (fun _ => .resp ⟨429, none, none, ""⟩) (3 + 1) 0 [] =
      make_requestAux ⟨3, 1, 10⟩ (fun _ => .resp ⟨429, none, none, ""⟩) 3 1
        [((pyIntOfRat 1 : Int) : ℚ)]) ∧
    make_requestAux ⟨3, 1, 10⟩ (fun _ => .resp ⟨429, some "soon", none, ""⟩)
        (3 + 1) 0 [] =
      { result := none, calls := 0 + 1, sleeps := ([] : List ℚ).reverse } :=
  ⟨(retry_after_header_handling.1 ⟨3, 1, 10⟩ _ 3 0 [] ⟨429, none, none, ""⟩
      rfl rfl rfl (by decide)).1,
   retry_after_header_handling.2 ⟨3, 1, 10⟩ _ 3 0 [] ⟨429, some "soon", none, ""⟩
      "soon" rfl rfl rfl (by decide)⟩

/-- C8, confirmed.  Wherever the loop receives a response with status code
at least 400 and different from 429, it returns absence at once: the call
count stops at the current attempt and the sleep trace is left as it was,
regardless of the remaining budget. -/
theorem definitive_failure_immediate (h : NetworkHandler)
    (t : Nat → TransportEvent) (fuel attempt : Nat) (sleeps : List ℚ)
    (r : HttpResponse) (ht : t (attempt + 1) = .resp r)
    (h400 : 400 ≤ r.status_code) (h429 : r.status_code ≠ 429) :
    make_requestAux h t (fuel + 1) attempt sleeps =
      { result := none, calls := attempt + 1, sleeps := sleeps.reverse } := by
  have hlt : ¬ r.status_code < 400 := by omega
  simp only [make_requestAux, ht]
  rw [if_neg hlt, if_neg h429]

/-- Concrete instantiation of C8: a 500 on the first attempt of a fresh run
ends it after one call with no sleep. -/
theorem definitive_failure_immediate_witness :
    make_requestAux ⟨3, 1, 10⟩ (fun _ => .resp ⟨500, none, none, "err"⟩)
        (3 + 1) 0 [] =
      { result := none, calls := 0 + 1, sleeps := ([] : List ℚ).reverse } :=
  definitive_failure_immediate ⟨3, 1, 10⟩ _ 3 0 [] ⟨500, none, none, "err"⟩
    rfl (by norm_num) (by norm_num)

/-- Falsifies C9 as stated: a 200 response whose body is the JSON literal
`null` makes `response.json()` return `None` without raising, and
`return response.json()` hands that `None` — the absence signal — straight
to the caller, so a sub-400 response can yield absence. -/
theorem sub_400_null_body_absence_cex :
    (make_request ⟨3, 1, 10⟩
        (fun _ => .resp ⟨200, none, some .jnull, "null"⟩)).result = none ∧
    (⟨200, none, some .jnull, "null"⟩ : HttpResponse).status_code < 400 :=
  ⟨rfl, by norm_num⟩

/-- C9, amended.  Wherever the loop receives a response with status code
below 400, it returns `response.json()` verbatim at once — the parsed JSON
body when it parses and is not `null`, absence (`None`) when the body is
the JSON literal `null`, and the `{status: "success", data: <raw text>}`
wrapper when parsing raises `ValueError`; an unparseable body is thus
never treated as a failure, but a body parsing to `null` is
indistinguishable from one. -/
theorem sub_400_body_handling (h : NetworkHandler)
    (t : Nat → TransportEvent) (fuel attempt : Nat) (sleeps : List ℚ)
    (r : HttpResponse) (ht : t (attempt + 1) = .resp r)
    (hst : r.status_code < 400) :
    make_requestAux h t (fuel + 1) attempt sleeps =
      { result := successBody r, calls := attempt + 1,
        sleeps := sleeps.reverse } ∧
    (r.jsonBody = none →
      successBody r =
        some (.jobj [("status", .jstr "success"), ("data", .jstr r.text)])) ∧
    (r.jsonBody = some .jnull → successBody r = none) ∧
    (∀ v, r.jsonBody = some v → v ≠ .jnull → successBody r = some v) := by
  refine ⟨?_, ?_, ?_, ?_⟩
  · simp only [make_requestAux, ht]
    rw [if_pos hst]
  · intro hj
    simp [successBody, hj]
  · intro hj
    simp [successBody, hj]
  · intro v hj hv
    cases v with
    | jnull => exact absurd rfl hv
    | jstr s => simp [successBody, hj]
    | jnum n => simp [successBody, hj]
    | jbool b => simp [successBody, hj]
    | jobj l => simp [successBody, hj]

/-- Concrete instantiation of the amended C9: a 200 with a non-JSON body
yields the raw-text wrapper, a 200 with body `null` yields absence, and a
200 with a JSON number yields that number. -/
theorem sub_400_body_handling_witness :
    make_requestAux ⟨3, 1, 10⟩ (fun _ => .resp ⟨200, none, none, "hello"⟩)
        (3 + 1) 0 [] =
      { result := successBody ⟨200, none, none, "hello"⟩, calls := 0 + 1,
        sleeps := ([] : List ℚ).reverse } ∧
    successBody ⟨200, none, none, "hello"⟩ =
      some (.jobj [("status", .jstr "success"), ("data", .jstr "hello")]) ∧
    successBody ⟨200, none, some .jnull, "null"⟩ = none ∧
    successBody ⟨200, none, some (.jnum 7), "7"⟩ = some (.jnum 7) :=
  ⟨(sub_400_body_handling ⟨3, 1, 10⟩ (fun _ => .resp ⟨200, none, none, "hello"⟩)
      3 0 [] ⟨200, none, none, "hello"⟩ rfl (by norm_num)).1,
   (sub_400_body_handling ⟨3, 1, 10⟩ (fun _ => .resp ⟨200, none, none, "hello"⟩)
      3 0 [] ⟨200, none, none, "hello"⟩ rfl (by norm_num)).2.1 rfl,
   (sub_400_body_handling ⟨3, 1, 10⟩
      (fun _ => .resp ⟨200, none, some .jnull, "null"⟩)
      3 0 [] ⟨200, none, some .jnull, "null"⟩ rfl (by norm_num)).2.2.1 rfl,
   (sub_400_body_handling ⟨3, 1, 10⟩
      (fun _ => .resp ⟨200, none, some (.jnum 7), "7"⟩)
      3 0 [] ⟨200, none, some (.jnum 7), "7"⟩ rfl (by norm_num)).2.2.2
      (.jnum 7) rfl (by simp)⟩

/-- C10, confirmed.  `make_request` always returns a structured value or
absence (the embedding is a total function into `Option`-valued results;
every `except` clause of the source is one of the modelled branches), and
an exception outside the `Timeout`/`ConnectionError`/`RequestException`
categories makes the loop return absence at once, with no retry and no
sleep. -/
theorem make_request_total_and_unexpected_error :
    (∀ (h : NetworkHandler) (t : Nat → TransportEvent),
      (make_request h t).result = none ∨
        ∃ v, (make_request h t).result = some v) ∧
    (∀ (h : NetworkHandler) (t : Nat → TransportEvent) (fuel attempt : Nat)
        (sleeps : List ℚ),
      t (attempt + 1) = .otherError →
      make_requestAux h t (fuel + 1) attempt sleeps =
        { result := none, calls := attempt + 1, sleeps := sleeps.reverse }) := by
  constructor
  · intro h t
    cases hres : (make_request h t).result with
    | none => exact Or.inl rfl
    | some v => exact Or.inr ⟨v, rfl⟩
  · intro h t fuel attempt sleeps htr
    simp only [make_requestAux, htr]

/-- Concrete instantiation of C10: an unclassified transport exception on
the first attempt of a fresh run ends it after one call. -/
theorem make_request_total_and_unexpected_error_witness :
    ((make_request ⟨3, 1, 10⟩ (fun _ => .otherError)).result = none ∨
      ∃ v, (make_request ⟨3, 1, 10⟩ (fun _ => .otherError)).result = some v) ∧
    make_requestAux ⟨3, 1, 10⟩ (fun _ => .otherError) (3 + 1) 0 [] =
      { result := none, calls := 0 + 1, sleeps := ([] : List ℚ).reverse } :=
  ⟨make_request_total_and_unexpected_error.1 ⟨3, 1, 10⟩ _,
   make_request_total_and_unexpected_error.2 ⟨3, 1, 10⟩ _ 3 0 [] rfl⟩

/-- Falsifies C7 as stated: an empty dict is a supplied fallback payload,
but `if fallback_data:` is a truthiness test, so on transport failure the
synthesized error marker is returned instead of the supplied (empty)
payload. -/
theorem empty_fallback_dict_cex :
    with_fallback ⟨3, 1, 10⟩ (fun _ => .timeout) (some (.jobj [])) =
      errorFallbackMarker ∧
    errorFallbackMarker ≠ .jobj [] :=
  ⟨rfl, by simp [errorFallbackMarker]⟩

/-- C7, amended.  `with_fallback` returns a payload from the Executor
verbatim; on absence it returns the supplied fallback payload verbatim when
that payload is truthy (a non-empty dict), and the synthesized
`{status: "error", message: "Network request failed", fallback: true}`
marker when the fallback payload is absent or falsy (such as the empty
dict).  The operation is a total function — it never raises. -/
theorem with_fallback_cases (h : NetworkHandler) (t : Nat → TransportEvent)
    (fb : Option JValue) :
    (∀ r, (make_request h t).result = some r → with_fallback h t fb = r) ∧
    ((make_request h t).result = none →
      (∀ v, fb = some v → pyTruthy v = true → with_fallback h t fb = v) ∧
      (∀ v, fb = some v → pyTruthy v = false →
        with_fallback h t fb = errorFallbackMarker) ∧
      (fb = none → with_fallback h t fb = errorFallbackMarker)) := by
  refine ⟨?_, ?_⟩
  · intro r hr
    simp [with_fallback, hr]
  · intro hn
    refine ⟨?_, ?_, ?_⟩
    · intro v hv htr
      subst hv
      simp [with_fallback, hn, htr]
    · intro v hv hfa
      subst hv
      simp [with_fallback, hn, hfa]
    · intro hv
      subst hv
      simp [with_fallback, hn]

/-- Concrete instantiation of the amended C7: live data on success, the
supplied non-empty payload on failure, the marker when nothing was
supplied. -/
theorem with_fallback_cases_witness :
    with_fallback ⟨3, 1, 10⟩ (fun _ => .resp ⟨200, none, some (.jnum 7), "7"⟩)
        (some (.jobj [("cached", .jbool true)])) = .jnum 7 ∧
    with_fallback ⟨3, 1, 10⟩ (fun _ => .timeout)
        (some (.jobj [("cached", .jbool true)])) =
      .jobj [("cached", .jbool true)] ∧
    with_fallback ⟨3, 1, 10⟩ (fun _ => .timeout) none = errorFallbackMarker :=
  ⟨(with_fallback_cases ⟨3, 1, 10⟩
      (fun _ => .resp ⟨200, none, some (.jnum 7), "7"⟩)
      (some (.jobj [("cached", .jbool true)]))).1 (.jnum 7) rfl,
   ((with_fallback_cases ⟨3, 1, 10⟩ (fun _ => .timeout)
      (some (.jobj [("cached", .jbool true)]))).2 rfl).1 _ rfl rfl,
   ((with_fallback_cases ⟨3, 1, 10⟩ (fun _ => .timeout) none).2 rfl).2.2 rfl⟩

/-- C6, confirmed.  Once a `get_with_cache` call for a key has succeeded
from a live transport response, any later call with the same URL and params
returns the identical value from the cache, leaves the state unchanged, and
issues no network call — whatever the transport would do. -/
theorem get_with_cache_idempotent (h : NetworkHandler)
    (st : NetworkFailureHandlerState) (t1 : Nat → TransportEvent)
    (url params : String) (r : JValue)
    (hc : dictGet st.cache (cache_key url params) = none)
    (h1 : (make_request h t1).result = some r) :
    (get_with_cache h st t1 url params).value = r ∧
    ∀ t2, get_with_cache h (get_with_cache h st t1 url params).state t2
        url params =
      { value := r, state := (get_with_cache h st t1 url params).state,
        networkCalls := 0 } := by
  have hmain : get_with_cache h st t1 url params =
      { value := r,
        state := { st with cache := dictSet st.cache (cache_key url params) r },
        networkCalls := (make_request h t1).calls } := by
    simp only [get_with_cache, hc, h1]
  rw [hmain]
  refine ⟨rfl, fun t2 => ?_⟩
  simp only [get_with_cache, dictGet_dictSet_self]

/-- Concrete instantiation of C6: after a successful first call, a second
call with a transport that always times out still returns the same data
with zero network calls. -/
theorem get_with_cache_idempotent_witness :
    (get_with_cache ⟨3, 1, 10⟩ ⟨[], []⟩
        (fun _ => .resp ⟨200, none, some (.jnum 7), "7"⟩) "u" "p").value =
      .jnum 7 ∧
    get_with_cache ⟨3, 1, 10⟩
        (get_with_cache ⟨3, 1, 10⟩ ⟨[], []⟩
          (fun _ => .resp ⟨200, none, some (.jnum 7), "7"⟩) "u" "p").state
        (fun _ => .timeout) "u" "p" =
      { value := .jnum 7,
        state := (get_with_cache ⟨3, 1, 10⟩ ⟨[], []⟩
          (fun _ => .resp ⟨200, none, some (.jnum 7), "7"⟩) "u" "p").state,
        networkCalls := 0 } :=
  ⟨(get_with_cache_idempotent ⟨3, 1, 10⟩ ⟨[], []⟩
      (fun _ => .resp ⟨200, none, some (.jnum 7), "7"⟩) "u" "p" (.jnum 7)
      rfl rfl).1,
   (get_with_cache_idempotent ⟨3, 1, 10⟩ ⟨[], []⟩
      (fun _ => .resp ⟨200, none, some (.jnum 7), "7"⟩) "u" "p" (.jnum 7)
      rfl rfl).2 (fun _ => .timeout)⟩

end Recac
